import Mathlib

/-!
Verification of the jira-to-yatracker convergence engine against its
natural-language specification.  The definitions below are a shallow
embedding of the Python sources (`src/field_mapper.py`, `src/__main__.py`,
`src/cl_arguments.py`): pure translation logic becomes Lean functions,
fallible code returns `Except`, and the remote tracker clients are
abstracted as explicit parameters describing the outcome of each call.
-/

/-- Errors raised by the migration code.  Each constructor corresponds to a
Python exception class used in the sources: `ValueError` for unknown mapping
sections and for the `change_status` caller-contract check, `KeyError` for a
missing key in a mapping dictionary, `Jira2YaTrackerError` for an unknown
destination user, `yatracker.exceptions.YaTrackerError` (carrying the parsed
`statusCode`) for the modern client, and a generic remote failure. -/
inductive PyError where
  | unknownSection (sectionName : String)
  | keyNotFound (sectionName key : String)
  | unknownUser (username : String)
  | valueError (msg : String)
  | yaTrackerError (statusCode : Int)
  | remoteFailure (msg : String)
  deriving DecidableEq, Repr

/-- Python `str.lower()` restricted to the ASCII case folding used by the
mapping keys (embedding of the `key.lower()` calls in `field_mapper.py`). -/
def pyLower (s : String) : String :=
  String.mk (s.data.map Char.toLower)

/-- The mapping tables of `Jira2YaTrackerFieldMapper` (`field_mapper.py`,
lines 26-41).  Each INI section becomes an association list from source key
to destination key; `__parse_ini_file` lowercases keys of every section
except `custom_fields`, so lookups below lowercase the probe accordingly. -/
structure Jira2YaTrackerFieldMapper where
  users : List (String × String)
  priorities : List (String × String)
  types : List (String × String)
  statuses : List (String × String)
  relationships : List (String × String)
  custom_fields : List (String × String)

/-- A mapper with all tables empty, used as a base for concrete examples. -/
def emptyMapper : Jira2YaTrackerFieldMapper :=
  { users := [], priorities := [], types := [], statuses := [],
    relationships := [], custom_fields := [] }

/-- Embedding of `getattr(self, section_name, None)` on the mapper: the six
section attributes are the only ones that resolve. -/
def Jira2YaTrackerFieldMapper.getSection (m : Jira2YaTrackerFieldMapper) :
    String → Option (List (String × String))
  | "users" => Option.some m.users
  | "priorities" => Option.some m.priorities
  | "types" => Option.some m.types
  | "statuses" => Option.some m.statuses
  | "relationships" => Option.some m.relationships
  | "custom_fields" => Option.some m.custom_fields
  | _ => Option.none

/-- `key_of_dict` as computed in `__get_value_from_attr` (line 67): the key
is lowercased for every section except `custom_fields`. -/
def keyOfDict (sectionName key : String) : String :=
  if sectionName == "custom_fields" then key else pyLower key

/-- Embedding of `Jira2YaTrackerFieldMapper.__get_value_from_attr`
(`field_mapper.py`, lines 60-75): unknown section raises `ValueError`,
a missing key raises `KeyError`, otherwise the mapped value is returned. -/
def Jira2YaTrackerFieldMapper.get_value_from_attr
    (m : Jira2YaTrackerFieldMapper) (sectionName key : String) :
    Except PyError String :=
  match m.getSection sectionName with
  | Option.none => Except.error (PyError.unknownSection sectionName)
  | Option.some sectionDict =>
    match sectionDict.lookup (keyOfDict sectionName key) with
    | Option.none =>
        Except.error (PyError.keyNotFound sectionName (keyOfDict sectionName key))
    | Option.some ytIssueField => Except.ok ytIssueField

/-- `jira_issue_type_to_yt_issue_type` (`field_mapper.py`, line 77). -/
def Jira2YaTrackerFieldMapper.jira_issue_type_to_yt_issue_type
    (m : Jira2YaTrackerFieldMapper) (issueType : String) : Except PyError String :=
  m.get_value_from_attr "types" issueType

/-- `jira_issue_priority_to_yt_issue_priority` (`field_mapper.py`, line 80). -/
def Jira2YaTrackerFieldMapper.jira_issue_priority_to_yt_issue_priority
    (m : Jira2YaTrackerFieldMapper) (issuePriority : String) : Except PyError String :=
  m.get_value_from_attr "priorities" issuePriority

/-- `jira_issue_status_to_yt_issue_status` (`field_mapper.py`, line 107). -/
def Jira2YaTrackerFieldMapper.jira_issue_status_to_yt_issue_status
    (m : Jira2YaTrackerFieldMapper) (jiraIssueStatus : String) : Except PyError String :=
  m.get_value_from_attr "statuses" jiraIssueStatus

/-- `jira_relationship_to_yt_relation` (`field_mapper.py`, line 110). -/
def Jira2YaTrackerFieldMapper.jira_relationship_to_yt_relation
    (m : Jira2YaTrackerFieldMapper) (relationship : String) : Except PyError String :=
  m.get_value_from_attr "relationships" relationship

/-- A Jira user object as consumed by `jira_user_to_yt_user_id`: the Python
code only probes it with `if not user_object` and
`hasattr(user_object, "displayName")`, so an absent attribute is modelled by
`Option.none`. -/
structure JiraUser where
  displayName : Option String

/-- Embedding of `jira_user_to_yt_user_id` (`field_mapper.py`, lines 83-105).
The memoized destination directory `_get_all_users_from_yatracker` is passed
as the association list `allUsersFromYatracker` from display name to uid. -/
def Jira2YaTrackerFieldMapper.jira_user_to_yt_user_id
    (m : Jira2YaTrackerFieldMapper) (allUsersFromYatracker : List (String × Int))
    (userObject : Option JiraUser) : Except PyError (Option Int) :=
  match userObject with
  | Option.none => Except.ok Option.none
  | Option.some u =>
    match u.displayName with
    | Option.none => Except.ok Option.none
    | Option.some dn =>
      match m.get_value_from_attr "users" dn with
      | Except.error e => Except.error e
      | Except.ok sourceJiraUsername =>
        match allUsersFromYatracker.lookup sourceJiraUsername with
        | Option.none => Except.error (PyError.unknownUser sourceJiraUsername)
        | Option.some uid => Except.ok (Option.some uid)

/-! ### Claim C3: mapping lookups succeed or fail loudly -/

/-- Claim C3: for every mapping table and every key, translation either
returns the mapped value (key present) or raises an error (key absent);
there is no silent default, and the status/type/priority/relationship
translators inherit this from `__get_value_from_attr`. -/
theorem mapping_lookup_total (m : Jira2YaTrackerFieldMapper) (key : String) :
    (∀ sec d, m.getSection sec = Option.some d →
       (∀ v, d.lookup (keyOfDict sec key) = Option.some v →
          m.get_value_from_attr sec key = Except.ok v) ∧
       (d.lookup (keyOfDict sec key) = Option.none →
          m.get_value_from_attr sec key =
            Except.error (PyError.keyNotFound sec (keyOfDict sec key)))) ∧
    (∀ sec, m.getSection sec = Option.none →
       m.get_value_from_attr sec key = Except.error (PyError.unknownSection sec)) ∧
    ((∀ v, m.statuses.lookup (pyLower key) = Option.some v →
        m.jira_issue_status_to_yt_issue_status key = Except.ok v) ∧
     (m.statuses.lookup (pyLower key) = Option.none →
        m.jira_issue_status_to_yt_issue_status key =
          Except.error (PyError.keyNotFound "statuses" (pyLower key)))) ∧
    ((∀ v, m.types.lookup (pyLower key) = Option.some v →
        m.jira_issue_type_to_yt_issue_type key = Except.ok v) ∧
     (m.types.lookup (pyLower key) = Option.none →
        m.jira_issue_type_to_yt_issue_type key =
          Except.error (PyError.keyNotFound "types" (pyLower key)))) ∧
    ((∀ v, m.priorities.lookup (pyLower key) = Option.some v →
        m.jira_issue_priority_to_yt_issue_priority key = Except.ok v) ∧
     (m.priorities.lookup (pyLower key) = Option.none →
        m.jira_issue_priority_to_yt_issue_priority key =
          Except.error (PyError.keyNotFound "priorities" (pyLower key)))) ∧
    ((∀ v, m.relationships.lookup (pyLower key) = Option.some v →
        m.jira_relationship_to_yt_relation key = Except.ok v) ∧
     (m.relationships.lookup (pyLower key) = Option.none →
        m.jira_relationship_to_yt_relation key =
          Except.error (PyError.keyNotFound "relationships" (pyLower key)))) := by
  have hgen : ∀ sec d, m.getSection sec = Option.some d →
      (∀ v, d.lookup (keyOfDict sec key) = Option.some v →
         m.get_value_from_attr sec key = Except.ok v) ∧
      (d.lookup (keyOfDict sec key) = Option.none →
         m.get_value_from_attr sec key =
           Except.error (PyError.keyNotFound sec (keyOfDict sec key))) := by
    intro sec d hd
    constructor
    · intro v hv
      simp only [Jira2YaTrackerFieldMapper.get_value_from_attr, hd, hv]
    · intro hv
      simp only [Jira2YaTrackerFieldMapper.get_value_from_attr, hd, hv]
  refine ⟨hgen, ?_, ?_, ?_, ?_, ?_⟩
  · intro sec hsec
    simp only [Jira2YaTrackerFieldMapper.get_value_from_attr, hsec]
  · exact (hgen "statuses" m.statuses rfl)
  · exact (hgen "types" m.types rfl)
  · exact (hgen "priorities" m.priorities rfl)
  · exact (hgen "relationships" m.relationships rfl)

/-- Witness for `mapping_lookup_total` on a concrete mapper: a mapped status
translates (case-insensitively), an unmapped type aborts with `KeyError`. -/
theorem mapping_lookup_total_witness :
    ({ emptyMapper with statuses := [("open", "openMeta")]
     } : Jira2YaTrackerFieldMapper).jira_issue_status_to_yt_issue_status "Open" =
      Except.ok "openMeta" ∧
    (emptyMapper.jira_issue_type_to_yt_issue_type "Bug" =
      Except.error (PyError.keyNotFound "types" "bug")) :=
  ⟨(mapping_lookup_total
      ({ emptyMapper with statuses := [("open", "openMeta")] }) "Open").2.2.1.1
      "openMeta" rfl,
   (mapping_lookup_total emptyMapper "Bug").2.2.2.1.2 rfl⟩

/-! ### Claim C4: two-stage user resolution -/

/-- Claim C4: user resolution returns `none` for an absent source user
without raising; for a present user it translates the display name through
the `users` table and resolves the result against the cached destination
directory, raising the fatal unknown-user error exactly when the resolved
username is absent from the directory. -/
theorem user_resolution_two_stage (m : Jira2YaTrackerFieldMapper)
    (dir : List (String × Int)) :
    (m.jira_user_to_yt_user_id dir Option.none = Except.ok Option.none) ∧
    (∀ u : JiraUser, u.displayName = Option.none →
        m.jira_user_to_yt_user_id dir (Option.some u) = Except.ok Option.none) ∧
    (∀ (u : JiraUser) (dn username : String), u.displayName = Option.some dn →
        m.get_value_from_attr "users" dn = Except.ok username →
        ((dir.lookup username = Option.none →
            m.jira_user_to_yt_user_id dir (Option.some u) =
              Except.error (PyError.unknownUser username)) ∧
         (∀ uid, dir.lookup username = Option.some uid →
            m.jira_user_to_yt_user_id dir (Option.some u) =
              Except.ok (Option.some uid)))) := by
  refine ⟨rfl, ?_, ?_⟩
  · intro u hu
    simp only [Jira2YaTrackerFieldMapper.jira_user_to_yt_user_id, hu]
  · intro u dn username hu htr
    constructor
    · intro hdir
      simp only [Jira2YaTrackerFieldMapper.jira_user_to_yt_user_id, hu, htr, hdir]
    · intro uid hdir
      simp only [Jira2YaTrackerFieldMapper.jira_user_to_yt_user_id, hu, htr, hdir]

/-- A mapper with a single user mapping, for the user-resolution witness. -/
def userMapperEx : Jira2YaTrackerFieldMapper :=
  { emptyMapper with users := [("alice smith", "asmith")] }

/-- Witness for `user_resolution_two_stage`: a mapped display name resolves
to the cached uid, and the same user is fatal when the directory is empty. -/
theorem user_resolution_two_stage_witness :
    userMapperEx.jira_user_to_yt_user_id [("asmith", 7)]
        (Option.some { displayName := Option.some "Alice Smith" }) =
      Except.ok (Option.some 7) ∧
    userMapperEx.jira_user_to_yt_user_id []
        (Option.some { displayName := Option.some "Alice Smith" }) =
      Except.error (PyError.unknownUser "asmith") ∧
    emptyMapper.jira_user_to_yt_user_id [] Option.none = Except.ok Option.none :=
  ⟨((user_resolution_two_stage userMapperEx [("asmith", 7)]).2.2
      { displayName := Option.some "Alice Smith" } "Alice Smith" "asmith"
      rfl rfl).2 7 rfl,
   ((user_resolution_two_stage userMapperEx []).2.2
      { displayName := Option.some "Alice Smith" } "Alice Smith" "asmith"
      rfl rfl).1 rfl,
   (user_resolution_two_stage emptyMapper []).1⟩

/-! ### `change_status` (`__main__.py`, lines 95-138) -/

/-- Python truthiness of an optional string argument: `None` and the empty
string are falsy, every other string is truthy (`bool(a)` in `logical_xor`). -/
def pyBool : Option String → Bool
  | Option.none => false
  | Option.some s => !s.isEmpty

/-- Embedding of `logical_xor` (`__main__.py`, lines 95-96):
`bool(a) + bool(b) == 1`. -/
def logical_xor (a b : Bool) : Bool :=
  a.toNat + b.toNat == 1

/-- Embedding of `change_status` (`__main__.py`, lines 100-138).  The issue
is represented by its current status key `currentStatusKey` and by the list
`transitions` of available transition identifiers
(`yt_issue.get_transitions()`); the result is the executed transition
identifier, or `none` when the status already matches and no transition call
is issued. -/
def change_status (m : Jira2YaTrackerFieldMapper) (currentStatusKey : String)
    (transitions : List String)
    (jiraStatusName ytStatusName : Option String) :
    Except PyError (Option String) :=
  if !logical_xor (pyBool jiraStatusName) (pyBool ytStatusName) then
    Except.error (PyError.valueError
      "Either 'jira_status_name' or 'yt_status_name' must be set")
  else
    let wantedStatusE : Except PyError String :=
      match jiraStatusName with
      | Option.some s => m.jira_issue_status_to_yt_issue_status s
      | Option.none => Except.ok (ytStatusName.getD "")
    match wantedStatusE with
    | Except.error e => Except.error e
    | Except.ok wantedStatus =>
      let ytIssueCurrentStatus := currentStatusKey ++ "Meta"
      if wantedStatus = ytIssueCurrentStatus then
        Except.ok Option.none
      else if wantedStatus ∈ transitions then
        Except.ok (Option.some wantedStatus)
      else
        Except.error (PyError.keyNotFound "transitions" wantedStatus)

/-! ### Claim C2: status reconciliation comparison -/

/-- Claim C2 counterexample: the code compares the translated status against
the current status key with `"Meta"` appended, not against the bare key.
With the `statuses` table mapping `open` to `open`, a destination issue whose
current status key is already `open` still gets the `open` transition
executed, refuting the claim that equality with the current status key means
no transition call. -/
theorem status_key_comparison_refuted :
    change_status ({ emptyMapper with statuses := [("open", "open")] })
        "open" ["open"] (Option.some "Open") Option.none =
      Except.ok (Option.some "open") := rfl

/-- Claim C2 (amended): status reconciliation translates the source status
through the `statuses` table and compares the result against the destination
issue's current status key with the suffix `"Meta"` appended; if they are
equal no transition call is made, otherwise the transition named by the
translated status is looked up among the available transitions and
executed (and its absence is a `KeyError`). -/
theorem status_reconciliation_meta_suffix (m : Jira2YaTrackerFieldMapper)
    (currentStatusKey : String) (transitions : List String)
    (s wanted : String) (hs : s.isEmpty = false)
    (htr : m.jira_issue_status_to_yt_issue_status s = Except.ok wanted) :
    (wanted = currentStatusKey ++ "Meta" →
       change_status m currentStatusKey transitions (Option.some s) Option.none =
         Except.ok Option.none) ∧
    (wanted ≠ currentStatusKey ++ "Meta" → wanted ∈ transitions →
       change_status m currentStatusKey transitions (Option.some s) Option.none =
         Except.ok (Option.some wanted)) ∧
    (wanted ≠ currentStatusKey ++ "Meta" → ¬ wanted ∈ transitions →
       change_status m currentStatusKey transitions (Option.some s) Option.none =
         Except.error (PyError.keyNotFound "transitions" wanted)) := by
  have hxor : logical_xor (pyBool (Option.some s)) (pyBool Option.none) = true := by
    simp [pyBool, logical_xor, hs]
  refine ⟨?_, ?_, ?_⟩
  · intro heq
    simp [change_status, hxor, htr, heq]
  · intro hne hmem
    simp [change_status, hxor, htr, hne, hmem]
  · intro hne hmem
    simp [change_status, hxor, htr, hne, hmem]

/-- Witness for `status_reconciliation_meta_suffix`: with `statuses` mapping
`open` to `openMeta`, an issue already at status key `open` is left alone,
and an issue at `closed` gets the `openMeta` transition executed. -/
theorem status_reconciliation_meta_suffix_witness :
    change_status ({ emptyMapper with statuses := [("open", "openMeta")] })
        "open" ["openMeta"] (Option.some "Open") Option.none =
      Except.ok Option.none ∧
    change_status ({ emptyMapper with statuses := [("open", "openMeta")] })
        "closed" ["openMeta"] (Option.some "Open") Option.none =
      Except.ok (Option.some "openMeta") :=
  ⟨(status_reconciliation_meta_suffix
      ({ emptyMapper with statuses := [("open", "openMeta")] })
      "open" ["openMeta"] "Open" "openMeta" rfl rfl).1 rfl,
   (status_reconciliation_meta_suffix
      ({ emptyMapper with statuses := [("open", "openMeta")] })
      "closed" ["openMeta"] "Open" "openMeta" rfl rfl).2.1
      (by decide) (by simp)⟩

/-! ### Claim C9: the caller contract of `change_status` -/

/-- Claim C9 counterexample: the caller-contract check uses Python
truthiness, not presence.  Supplying both arguments, one of them the empty
string, is accepted (here it even succeeds as a no-op), and supplying
exactly one argument that is the empty string is rejected — both refuting
the claim that the `ValueError` fires exactly when not exactly one argument
is supplied. -/
theorem xor_truthiness_refuted :
    change_status ({ emptyMapper with statuses := [("", "kMeta")] })
        "k" [] (Option.some "") (Option.some "kMeta") = Except.ok Option.none ∧
    change_status emptyMapper "k" [] (Option.some "") Option.none =
      Except.error (PyError.valueError
        "Either 'jira_status_name' or 'yt_status_name' must be set") :=
  ⟨rfl, rfl⟩

/-- Claim C9 (amended): `change_status` raises the caller-contract
`ValueError` exactly when not exactly one of the two status-name arguments is
truthy, i.e. non-`None` and non-empty; an empty string counts as not
supplied.  Supplying neither truthy value and supplying both are rejected
identically, and exactly one truthy value never produces the `ValueError`. -/
theorem change_status_value_error_iff (m : Jira2YaTrackerFieldMapper)
    (currentStatusKey : String) (transitions : List String)
    (jiraStatusName ytStatusName : Option String) :
    (∃ msg, change_status m currentStatusKey transitions
        jiraStatusName ytStatusName = Except.error (PyError.valueError msg)) ↔
      logical_xor (pyBool jiraStatusName) (pyBool ytStatusName) = false := by
  have hne : ∀ (s msg : String),
      m.jira_issue_status_to_yt_issue_status s ≠
        Except.error (PyError.valueError msg) := by
    intro s msg
    show m.get_value_from_attr "statuses" s ≠ _
    unfold Jira2YaTrackerFieldMapper.get_value_from_attr
    have hsec : m.getSection "statuses" = Option.some m.statuses := rfl
    rw [hsec]
    rcases hl : m.statuses.lookup (keyOfDict "statuses" s) with _ | v <;> simp [hl]
  constructor
  · intro h
    rcases h with ⟨msg, hmsg⟩
    cases hxor : logical_xor (pyBool jiraStatusName) (pyBool ytStatusName)
    · rfl
    · exfalso
      unfold change_status at hmsg
      rw [hxor] at hmsg
      simp only [Bool.not_true, Bool.false_eq_true, if_false] at hmsg
      split at hmsg
      next e heq =>
        cases hmsg
        rcases jiraStatusName with _ | s
        · exact absurd heq (by simp)
        · exact hne s msg heq
      next w heq =>
        split at hmsg
        · simp at hmsg
        · split at hmsg
          · simp at hmsg
          · simp at hmsg
  · intro hxor
    refine ⟨"Either 'jira_status_name' or 'yt_status_name' must be set", ?_⟩
    unfold change_status
    rw [hxor]
    simp

/-- Witness for `change_status_value_error_iff`: instantiated at the
both-`None` call, where the check fires. -/
theorem change_status_value_error_iff_witness :
    (∃ msg, change_status emptyMapper "k" [] Option.none Option.none =
        Except.error (PyError.valueError msg)) ↔
      logical_xor (pyBool Option.none) (pyBool Option.none) = false :=
  change_status_value_error_iff emptyMapper "k" [] Option.none Option.none

/-! ### Custom field translation (`field_mapper.py`, lines 113-162) -/

/-- A dynamically-typed Python value as traversed by
`jira_additional_fields_to_yt_additional_fields`: `None`, a string, an
integer, a list, or an object with named attributes. -/
inductive PyVal where
  | none
  | str (s : String)
  | int (n : Int)
  | list (xs : List PyVal)
  | obj (fields : List (String × PyVal))

/-- Structural equality on atomic values, modelling Python `==` as used by
the `x not in fields_to_add` membership tests.  The values diffed there are
atoms (strings and numbers); container values fall back to Python identity,
which the model has no notion of, so they compare unequal. -/
def PyVal.beq : PyVal → PyVal → Bool
  | PyVal.none, PyVal.none => true
  | PyVal.str a, PyVal.str b => a == b
  | PyVal.int a, PyVal.int b => a == b
  | _, _ => false

instance : BEq PyVal := ⟨PyVal.beq⟩

/-- Python `getattr(v, name, None)`: attribute lookup on an object, `None`
for any other value or a missing attribute. -/
def pyGetattr (v : PyVal) (name : String) : PyVal :=
  match v with
  | PyVal.obj fields => (fields.lookup name).getD PyVal.none
  | _ => PyVal.none

/-- One step of the dot-path traversal (`field_mapper.py`, lines 124-134):
on a non-list the next attribute is read with a `None` default; on a list
the attribute is read on every element and `None` results are dropped. -/
def stepPath (targetField : PyVal) (partOfKey : String) : PyVal :=
  match targetField with
  | PyVal.list xs =>
      PyVal.list (xs.filterMap (fun item =>
        match pyGetattr item partOfKey with
        | PyVal.none => Option.none
        | w => Option.some w))
  | v => pyGetattr v partOfKey

/-- Python `key.split(".")` on the character list (returns one segment even
for an empty or dot-free key, as `str.split` does). -/
def splitDotAux : List Char → List Char → List String
  | [], acc => [String.mk acc.reverse]
  | c :: rest, acc =>
    if c = '.' then String.mk acc.reverse :: splitDotAux rest []
    else splitDotAux rest (c :: acc)

/-- `key.split(".")` for a `String`. -/
def splitDot (s : String) : List String :=
  splitDotAux s.data []

/-- The full dot-path resolution loop of
`jira_additional_fields_to_yt_additional_fields` (lines 122-134). -/
def resolvePath (jiraFields : PyVal) (key : String) : PyVal :=
  (splitDot key).foldl stepPath jiraFields

/-- An entry of the result dictionary of
`jira_additional_fields_to_yt_additional_fields`: an add/remove patch for a
multi-valued field, an add/remove patch of component ids, or a scalar
full replacement. -/
inductive FieldUpdate where
  | patch (add remove : List PyVal)
  | patchIds (add remove : List Int)
  | scalar (v : PyVal)

/-- `components[i]` (line 141): index the memoized component-name directory;
a missing name is a `KeyError`, and a non-string value can never be a key of
the name-to-id dictionary. -/
def componentsIndex (components : List (String × Int)) : PyVal → Except PyError Int
  | PyVal.str s =>
      match components.lookup s with
      | Option.some cid => Except.ok cid
      | Option.none => Except.error (PyError.keyNotFound "components" s)
  | _ => Except.error (PyError.keyNotFound "components" "")

/-- Python `int(x)` as applied to component ids (lines 141-146): integers
pass through, numeric strings parse, anything else is a `ValueError`. -/
def pyInt : PyVal → Except PyError Int
  | PyVal.int n => Except.ok n
  | PyVal.str s =>
      match s.toInt? with
      | Option.some n => Except.ok n
      | Option.none => Except.error (PyError.valueError s)
  | _ => Except.error (PyError.valueError "int conversion")

/-- The `for key, value in self.custom_fields.items()` loop of
`jira_additional_fields_to_yt_additional_fields` (lines 121-161), with the
result dictionary as an ordered entry list.  `ytIssueFields` maps a
destination field name to the issue's existing values
(`getattr(yt_issue_fields, value, [])`, always iterated as a list). -/
def processCustomFieldsList (jiraFields : PyVal) (components : List (String × Int))
    (ytIssueFields : List (String × List PyVal))
    (result : List (String × FieldUpdate)) :
    List (String × String) → Except PyError (List (String × FieldUpdate))
  | [] => Except.ok result
  | (key, value) :: rest =>
    match resolvePath jiraFields key with
    | PyVal.list xs =>
      let sourceYtValue := (ytIssueFields.lookup value).getD []
      if value == "components" then
        match xs.mapM (componentsIndex components) with
        | Except.error e => Except.error e
        | Except.ok fieldsToAdd =>
          match sourceYtValue.mapM (fun ytComponent =>
              pyInt (pyGetattr ytComponent "id")) with
          | Except.error e => Except.error e
          | Except.ok currentIds =>
            let fieldsToRemove := currentIds.filter
              (fun x => !(fieldsToAdd.contains x))
            if !fieldsToAdd.isEmpty || !fieldsToRemove.isEmpty then
              processCustomFieldsList jiraFields components ytIssueFields
                (result ++ [(value, FieldUpdate.patchIds fieldsToAdd fieldsToRemove)])
                rest
            else
              processCustomFieldsList jiraFields components ytIssueFields result rest
      else
        let fieldsToAdd := xs
        let fieldsToRemove := sourceYtValue.filter
          (fun x => !(fieldsToAdd.contains x))
        if !fieldsToAdd.isEmpty || !fieldsToRemove.isEmpty then
          processCustomFieldsList jiraFields components ytIssueFields
            (result ++ [(value, FieldUpdate.patch fieldsToAdd fieldsToRemove)]) rest
        else
          processCustomFieldsList jiraFields components ytIssueFields result rest
    | PyVal.none => processCustomFieldsList jiraFields components ytIssueFields result rest
    | v =>
        processCustomFieldsList jiraFields components ytIssueFields
          (result ++ [(value, FieldUpdate.scalar v)]) rest

/-- Embedding of `jira_additional_fields_to_yt_additional_fields`
(`field_mapper.py`, lines 113-162).  The memoized
`_get_all_components_from_yatracker` directory is the `components`
parameter. -/
def Jira2YaTrackerFieldMapper.jira_additional_fields_to_yt_additional_fields
    (m : Jira2YaTrackerFieldMapper) (jiraFields : PyVal)
    (components : List (String × Int))
    (ytIssueFields : List (String × List PyVal)) :
    Except PyError (List (String × FieldUpdate)) :=
  processCustomFieldsList jiraFields components ytIssueFields [] m.custom_fields

/-! ### Claim C1: the multi-valued custom-field patch -/

/-- A mapper with a single multi-valued custom field mapping. -/
def customMapperEx : Jira2YaTrackerFieldMapper :=
  { emptyMapper with custom_fields := [("labels", "tags")] }

/-- Claim C1 counterexample: the code sends the full desired list as
`fields_to_add` (deliberately, per the source comment, so the applied values
show up in the logs) instead of `desired − current`.  With
`current = [1, 2, 3]` and `desired = [2, 3, 4]` the emitted patch is
`add = [2, 3, 4], remove = [1]`, not `add = [4], remove = [1]`; and with
`current = desired = [5]` a patch `add = [5], remove = []` is still emitted
although the claim demands that nothing be emitted. -/
theorem multi_valued_diff_law_refuted :
    customMapperEx.jira_additional_fields_to_yt_additional_fields
        (PyVal.obj [("labels", PyVal.list [PyVal.int 2, PyVal.int 3, PyVal.int 4])]) []
        [("tags", [PyVal.int 1, PyVal.int 2, PyVal.int 3])] =
      Except.ok [("tags",
        FieldUpdate.patch [PyVal.int 2, PyVal.int 3, PyVal.int 4] [PyVal.int 1])] ∧
    ¬ ([PyVal.int 2, PyVal.int 3, PyVal.int 4] = [PyVal.int 4]) ∧
    customMapperEx.jira_additional_fields_to_yt_additional_fields
        (PyVal.obj [("labels", PyVal.list [PyVal.int 5])]) []
        [("tags", [PyVal.int 5])] =
      Except.ok [("tags", FieldUpdate.patch [PyVal.int 5] [])] ∧
    ¬ ((Except.ok [("tags", FieldUpdate.patch [PyVal.int 5] [])] :
          Except PyError (List (String × FieldUpdate))) =
        Except.ok ([] : List (String × FieldUpdate))) := by
  refine ⟨rfl, ?_, rfl, ?_⟩
  · intro h
    have hlen := congrArg List.length h
    simp at hlen
  · intro h
    injection h with h2
    simp at h2

/-- Claim C1 (amended): for a configured multi-valued custom field the patch
is `add = desired` in full (values already present are not dropped) and
`remove = current − desired`; it is emitted exactly when `desired` or
`current − desired` is non-empty, so a non-empty `current = desired` still
emits `add = current, remove = []`. -/
theorem multi_valued_patch_add_is_full_desired
    (m : Jira2YaTrackerFieldMapper) (key value : String) (jiraFields : PyVal)
    (components : List (String × Int)) (ytIssueFields : List (String × List PyVal))
    (xs : List PyVal)
    (hm : m.custom_fields = [(key, value)])
    (hx : resolvePath jiraFields key = PyVal.list xs)
    (hv : (value == "components") = false) :
    m.jira_additional_fields_to_yt_additional_fields jiraFields components
        ytIssueFields =
      Except.ok
        (if !xs.isEmpty ||
            !(((ytIssueFields.lookup value).getD []).filter
                (fun x => !(xs.contains x))).isEmpty
         then [(value, FieldUpdate.patch xs
                 (((ytIssueFields.lookup value).getD []).filter
                   (fun x => !(xs.contains x))))]
         else []) := by
  unfold Jira2YaTrackerFieldMapper.jira_additional_fields_to_yt_additional_fields
  rw [hm]
  unfold processCustomFieldsList
  rw [hx]
  simp only [hv, Bool.false_eq_true, if_false]
  split
  · rfl
  · rfl

/-- Witness for `multi_valued_patch_add_is_full_desired` on concrete
values. -/
theorem multi_valued_patch_add_is_full_desired_witness :
    customMapperEx.jira_additional_fields_to_yt_additional_fields
        (PyVal.obj [("labels", PyVal.list [PyVal.str "a", PyVal.str "b"])]) []
        [("tags", [PyVal.str "b", PyVal.str "c"])] =
      Except.ok [("tags",
        FieldUpdate.patch [PyVal.str "a", PyVal.str "b"] [PyVal.str "c"])] := by
  have h := multi_valued_patch_add_is_full_desired customMapperEx "labels" "tags"
      (PyVal.obj [("labels", PyVal.list [PyVal.str "a", PyVal.str "b"])]) []
      [("tags", [PyVal.str "b", PyVal.str "c"])]
      [PyVal.str "a", PyVal.str "b"] rfl rfl rfl
  exact h.trans rfl

/-! ### Link creation (`__main__.py`, lines 141-257) -/

/-- Outcome of the destination-side fetch-and-create-link sequence inside
the `try` block of `link_yt_issues` (lines 148-156): success,
`UnprocessableEntity` (targets already linked), `NotFound` (target absent),
or any other exception. -/
inductive LinkCreateOutcome where
  | success
  | unprocessableEntity (errorMessages : List String)
  | notFoundEntity (errorMessages : List String)
  | otherFailure (e : PyError)

/-- Embedding of `link_yt_issues` (`__main__.py`, lines 142-178).  The
remote behaviour is the `createLink` parameter applied to the two issue keys
and the translated relationship.  On the two tolerated exception classes the
function returns normally with the warning messages that get logged; every
other failure propagates. -/
def link_yt_issues (m : Jira2YaTrackerFieldMapper)
    (createLink : String → String → String → LinkCreateOutcome)
    (firstIssueKey secondIssueKey typeOfRelation : String) :
    Except PyError (List String) :=
  match m.jira_relationship_to_yt_relation typeOfRelation with
  | Except.error e => Except.error e
  | Except.ok relationship =>
    match createLink firstIssueKey secondIssueKey relationship with
    | LinkCreateOutcome.success => Except.ok []
    | LinkCreateOutcome.unprocessableEntity msgs => Except.ok msgs
    | LinkCreateOutcome.notFoundEntity msgs => Except.ok msgs
    | LinkCreateOutcome.otherFailure e => Except.error e

/-- The arguments of one `link_yt_issues` invocation, as recorded by the
traced link-establishment run. -/
structure LinkCall where
  firstIssueKey : String
  secondIssueKey : String
  typeOfRelation : String
  deriving DecidableEq, Repr

/-- Run `link_yt_issues` and append the invocation to the trace `acc` on
success (on failure the whole establishment aborts, so the trace is
discarded with the error). -/
def trackedLink (m : Jira2YaTrackerFieldMapper)
    (createLink : String → String → String → LinkCreateOutcome)
    (acc : List LinkCall) (firstIssueKey secondIssueKey typeOfRelation : String) :
    Except PyError (List LinkCall) :=
  match link_yt_issues m createLink firstIssueKey secondIssueKey typeOfRelation with
  | Except.error e => Except.error e
  | Except.ok _ => Except.ok (acc ++ [⟨firstIssueKey, secondIssueKey, typeOfRelation⟩])

/-- The key and issue-type name of an issue as used by
`link_yt_issues_parent` and the epic-child query. -/
structure IssueRef where
  key : String
  issuetypeName : String

/-- `issue_link.type` with its `outward` label. -/
structure LinkType where
  outward : String

/-- One entry of `jira_issue.fields.issuelinks`: at most one of
`outwardIssue`/`inwardIssue` is populated with the other issue's key. -/
structure IssueLink where
  outwardIssue : Option String
  inwardIssue : Option String
  type : LinkType

/-- A Jira issue as consumed by `establish_links_between_issues`. -/
structure JiraIssue where
  key : String
  issuetypeName : String
  issuelinks : List IssueLink
  subtasks : List IssueRef
  parent : Option IssueRef

/-- Embedding of `get_all_jira_additional_linked_issues` (`__main__.py`,
lines 190-208): translate the issue type; non-epics contribute no children,
epics contribute the result of the separate source query, passed here as
`epicChildQuery`. -/
def get_all_jira_additional_linked_issues (m : Jira2YaTrackerFieldMapper)
    (issue : JiraIssue) (epicChildQuery : List IssueRef) :
    Except PyError (List IssueRef) :=
  match m.jira_issue_type_to_yt_issue_type issue.issuetypeName with
  | Except.error e => Except.error e
  | Except.ok typeOfIssue =>
      if typeOfIssue ≠ "epic" then Except.ok [] else Except.ok epicChildQuery

/-- `link_yt_issues_parent` (`__main__.py`, lines 211-221), traced:
translate the first issue's type and link with relation `epic` for an epic
parent and `subtask` otherwise. -/
def trackedLinkParent (m : Jira2YaTrackerFieldMapper)
    (createLink : String → String → String → LinkCreateOutcome)
    (acc : List LinkCall) (first second : IssueRef) :
    Except PyError (List LinkCall) :=
  match m.jira_issue_type_to_yt_issue_type first.issuetypeName with
  | Except.error e => Except.error e
  | Except.ok typeOfIssue =>
    if typeOfIssue = "epic" then
      trackedLink m createLink acc first.key second.key "epic"
    else
      trackedLink m createLink acc first.key second.key "subtask"

/-- The `for issue_link in jira_issue.fields.issuelinks` loop
(`__main__.py`, lines 239-247): an outward link is created as
`(this, other, outward)`, an inward link with swapped arguments as
`(other, this, outward)`. -/
def processIssueLinks (m : Jira2YaTrackerFieldMapper)
    (createLink : String → String → String → LinkCreateOutcome)
    (thisKey : String) (acc : List LinkCall) :
    List IssueLink → Except PyError (List LinkCall)
  | [] => Except.ok acc
  | l :: rest =>
    match l.outwardIssue with
    | Option.some other =>
        match trackedLink m createLink acc thisKey other l.type.outward with
        | Except.error e => Except.error e
        | Except.ok acc2 => processIssueLinks m createLink thisKey acc2 rest
    | Option.none =>
      match l.inwardIssue with
      | Option.some other =>
          match trackedLink m createLink acc other thisKey l.type.outward with
          | Except.error e => Except.error e
          | Except.ok acc2 => processIssueLinks m createLink thisKey acc2 rest
      | Option.none => processIssueLinks m createLink thisKey acc rest

/-- The subtask and epic-children loops (`__main__.py`, lines 249-253):
each child is linked under the parent reference `parentRef`. -/
def processChildLinks (m : Jira2YaTrackerFieldMapper)
    (createLink : String → String → String → LinkCreateOutcome)
    (parentRef : IssueRef) (acc : List LinkCall) :
    List IssueRef → Except PyError (List LinkCall)
  | [] => Except.ok acc
  | child :: rest =>
    match trackedLinkParent m createLink acc parentRef child with
    | Except.error e => Except.error e
    | Except.ok acc2 => processChildLinks m createLink parentRef acc2 rest

/-- Embedding of `establish_links_between_issues` (`__main__.py`, lines
224-257), returning the ordered trace of `link_yt_issues` invocations.  The
separate epic-child source query result is the `epicChildQuery` parameter. -/
def establish_links_between_issues (m : Jira2YaTrackerFieldMapper)
    (createLink : String → String → String → LinkCreateOutcome)
    (issue : JiraIssue) (epicChildQuery : List IssueRef) :
    Except PyError (List LinkCall) :=
  match get_all_jira_additional_linked_issues m issue epicChildQuery with
  | Except.error e => Except.error e
  | Except.ok epicIssues =>
    if issue.issuelinks.isEmpty && issue.subtasks.isEmpty
        && issue.parent.isNone && epicIssues.isEmpty then
      Except.ok []
    else
      match processIssueLinks m createLink issue.key [] issue.issuelinks with
      | Except.error e => Except.error e
      | Except.ok t1 =>
        match processChildLinks m createLink ⟨issue.key, issue.issuetypeName⟩
            t1 issue.subtasks with
        | Except.error e => Except.error e
        | Except.ok t2 =>
          match processChildLinks m createLink ⟨issue.key, issue.issuetypeName⟩
              t2 epicIssues with
          | Except.error e => Except.error e
          | Except.ok t3 =>
            match issue.parent with
            | Option.none => Except.ok t3
            | Option.some parentIssue =>
                trackedLinkParent m createLink t3 parentIssue
                  ⟨issue.key, issue.issuetypeName⟩

/-! ### Helper lemmas about the traced link runs -/

/-- A successful traced link appends exactly its invocation to the trace. -/
theorem trackedLink_ok_eq (m : Jira2YaTrackerFieldMapper)
    (cl : String → String → String → LinkCreateOutcome)
    (acc : List LinkCall) (f s t : String) (res : List LinkCall)
    (h : trackedLink m cl acc f s t = Except.ok res) :
    res = acc ++ [⟨f, s, t⟩] := by
  unfold trackedLink at h
  split at h
  · cases h
  · cases h; rfl

/-- A successful traced parent link appends one invocation `(first, second)`
with relation `epic` or `subtask`. -/
theorem trackedLinkParent_ok_ext (m : Jira2YaTrackerFieldMapper)
    (cl : String → String → String → LinkCreateOutcome)
    (acc : List LinkCall) (a b : IssueRef) (res : List LinkCall)
    (h : trackedLinkParent m cl acc a b = Except.ok res) :
    ∃ t, res = acc ++ [⟨a.key, b.key, t⟩] := by
  unfold trackedLinkParent at h
  split at h
  · cases h
  next typeOfIssue hty =>
    split at h
    · exact ⟨"epic", trackedLink_ok_eq m cl acc a.key b.key "epic" res h⟩
    · exact ⟨"subtask", trackedLink_ok_eq m cl acc a.key b.key "subtask" res h⟩

/-- A successful issue-links loop only extends the incoming trace. -/
theorem processIssueLinks_ok_ext (m : Jira2YaTrackerFieldMapper)
    (cl : String → String → String → LinkCreateOutcome) (thisKey : String)
    (ls : List IssueLink) :
    ∀ (acc res : List LinkCall),
      processIssueLinks m cl thisKey acc ls = Except.ok res →
      ∃ ext, res = acc ++ ext := by
  induction ls with
  | nil =>
    intro acc res h
    unfold processIssueLinks at h
    cases h
    exact ⟨[], by simp⟩
  | cons hd rest ih =>
    intro acc res h
    unfold processIssueLinks at h
    split at h
    next other hout =>
      split at h
      next e he => cases h
      next acc2 ht =>
        obtain ⟨ext, hext⟩ := ih acc2 res h
        rw [trackedLink_ok_eq m cl acc thisKey other hd.type.outward acc2 ht] at hext
        exact ⟨⟨thisKey, other, hd.type.outward⟩ :: ext, by rw [hext]; simp⟩
    next hout =>
      split at h
      next other hin =>
        split at h
        next e he => cases h
        next acc2 ht =>
          obtain ⟨ext, hext⟩ := ih acc2 res h
          rw [trackedLink_ok_eq m cl acc other thisKey hd.type.outward acc2 ht] at hext
          exact ⟨⟨other, thisKey, hd.type.outward⟩ :: ext, by rw [hext]; simp⟩
      next hin =>
        exact ih acc res h

/-- A successful child-links loop only extends the incoming trace. -/
theorem processChildLinks_ok_ext (m : Jira2YaTrackerFieldMapper)
    (cl : String → String → String → LinkCreateOutcome) (parentRef : IssueRef)
    (cs : List IssueRef) :
    ∀ (acc res : List LinkCall),
      processChildLinks m cl parentRef acc cs = Except.ok res →
      ∃ ext, res = acc ++ ext := by
  induction cs with
  | nil =>
    intro acc res h
    unfold processChildLinks at h
    cases h
    exact ⟨[], by simp⟩
  | cons c rest ih =>
    intro acc res h
    unfold processChildLinks at h
    split at h
    next e he => cases h
    next acc2 ht =>
      obtain ⟨ext, hext⟩ := ih acc2 res h
      obtain ⟨t, hta⟩ := trackedLinkParent_ok_ext m cl acc parentRef c acc2 ht
      exact ⟨⟨parentRef.key, c.key, t⟩ :: ext, by rw [hext, hta]; simp⟩

/-- A successfully processed inward link contributes the swapped-argument
invocation `(other, this, outward)` to the resulting trace. -/
theorem processIssueLinks_inward_mem (m : Jira2YaTrackerFieldMapper)
    (cl : String → String → String → LinkCreateOutcome) (thisKey : String)
    (ls : List IssueLink) :
    ∀ (acc res : List LinkCall) (l : IssueLink) (other : String),
      processIssueLinks m cl thisKey acc ls = Except.ok res →
      l ∈ ls → l.outwardIssue = Option.none → l.inwardIssue = Option.some other →
      (⟨other, thisKey, l.type.outward⟩ : LinkCall) ∈ res := by
  induction ls with
  | nil =>
    intro acc res l other h hl
    cases hl
  | cons hd rest ih =>
    intro acc res l other h hl ho hi
    unfold processIssueLinks at h
    rcases List.mem_cons.mp hl with heq | hmem
    · subst heq
      split at h
      next other2 hout =>
        rw [ho] at hout
        cases hout
      next hout =>
        split at h
        next other2 hin =>
          rw [hi] at hin
          injection hin with hoo
          subst hoo
          split at h
          next e he => cases h
          next acc2 ht =>
            obtain ⟨ext, hext⟩ := processIssueLinks_ok_ext m cl thisKey rest acc2 res h
            rw [trackedLink_ok_eq m cl acc other thisKey l.type.outward acc2 ht] at hext
            rw [hext]
            simp
        next hin =>
          rw [hi] at hin
          cases hin
    · split at h
      next other2 hout =>
        split at h
        next e he => cases h
        next acc2 ht => exact ih acc2 res l other h hmem ho hi
      next hout =>
        split at h
        next other2 hin =>
          split at h
          next e he => cases h
          next acc2 ht => exact ih acc2 res l other h hmem ho hi
        next hin =>
          exact ih acc res l other h hmem ho hi

/-! ### Claim C5: inward links are established as `(other, this, outward)` -/

/-- Claim C5: for every source issue link stored as an inward link (issue B
pointing at this issue A) with outward type label L, a successful link
establishment run invokes link creation with arguments `(B, A, L)`. -/
theorem inward_link_direction (m : Jira2YaTrackerFieldMapper)
    (cl : String → String → String → LinkCreateOutcome)
    (issue : JiraIssue) (epicChildQuery : List IssueRef) (trace : List LinkCall)
    (l : IssueLink) (other : String)
    (h : establish_links_between_issues m cl issue epicChildQuery = Except.ok trace)
    (hl : l ∈ issue.issuelinks)
    (ho : l.outwardIssue = Option.none)
    (hi : l.inwardIssue = Option.some other) :
    (⟨other, issue.key, l.type.outward⟩ : LinkCall) ∈ trace := by
  unfold establish_links_between_issues at h
  split at h
  next e he => cases h
  next epicIssues hepic =>
    split at h
    next hguard =>
      exfalso
      simp only [Bool.and_eq_true] at hguard
      have hnil : issue.issuelinks = [] := by
        simpa using hguard.1.1.1
      rw [hnil] at hl
      cases hl
    next hguard =>
      split at h
      next e he => cases h
      next t1 h1 =>
        split at h
        next e he => cases h
        next t2 h2 =>
          split at h
          next e he => cases h
          next t3 h3 =>
            have hmem1 : (⟨other, issue.key, l.type.outward⟩ : LinkCall) ∈ t1 :=
              processIssueLinks_inward_mem m cl issue.key issue.issuelinks
                [] t1 l other h1 hl ho hi
            obtain ⟨e2, he2⟩ := processChildLinks_ok_ext m cl
              ⟨issue.key, issue.issuetypeName⟩ issue.subtasks t1 t2 h2
            obtain ⟨e3, he3⟩ := processChildLinks_ok_ext m cl
              ⟨issue.key, issue.issuetypeName⟩ epicIssues t2 t3 h3
            split at h
            next hpar =>
              cases h
              rw [he3, he2]
              simp [hmem1]
            next parentIssue hpar =>
              obtain ⟨tp, htp⟩ := trackedLinkParent_ok_ext m cl t3 parentIssue
                ⟨issue.key, issue.issuetypeName⟩ trace h
              rw [htp, he3, he2]
              simp [hmem1]

/-- Mapper for the link witnesses. -/
def linkMapperEx : Jira2YaTrackerFieldMapper :=
  { emptyMapper with relationships := [("relates", "relates")],
                     types := [("task", "task")] }

/-- Source issue for the link-direction witness: issue `A` holding one
inward link from issue `B` with outward label `relates`. -/
def linkIssueEx : JiraIssue :=
  { key := "A", issuetypeName := "Task",
    issuelinks := [{ outwardIssue := Option.none,
                     inwardIssue := Option.some "B",
                     type := { outward := "relates" } }],
    subtasks := [], parent := Option.none }

/-- Witness for `inward_link_direction`: the inward link from `B` is
established as `(B, A, relates)`. -/
theorem inward_link_direction_witness :
    (⟨"B", "A", "relates"⟩ : LinkCall) ∈ ([⟨"B", "A", "relates"⟩] : List LinkCall) :=
  inward_link_direction linkMapperEx (fun _ _ _ => LinkCreateOutcome.success)
    linkIssueEx [] [⟨"B", "A", "relates"⟩]
    { outwardIssue := Option.none, inwardIssue := Option.some "B",
      type := { outward := "relates" } } "B"
    rfl (List.Mem.head _) rfl rfl

/-! ### Claim C6: tolerated link-creation outcomes -/

/-- Claim C6: when creating a single link, the outcomes "already linked"
(`UnprocessableEntity`) and "target not found" (`NotFound`) are absorbed
locally — the operation returns normally, carrying only the warning
messages to log — while every other failure from the link-creation sequence
propagates to the caller. -/
theorem link_failures_tolerated (m : Jira2YaTrackerFieldMapper)
    (cl : String → String → String → LinkCreateOutcome)
    (firstIssueKey secondIssueKey typeOfRelation relationship : String)
    (htr : m.jira_relationship_to_yt_relation typeOfRelation =
      Except.ok relationship) :
    (cl firstIssueKey secondIssueKey relationship = LinkCreateOutcome.success →
       link_yt_issues m cl firstIssueKey secondIssueKey typeOfRelation =
         Except.ok []) ∧
    (∀ msgs, cl firstIssueKey secondIssueKey relationship =
        LinkCreateOutcome.unprocessableEntity msgs →
       link_yt_issues m cl firstIssueKey secondIssueKey typeOfRelation =
         Except.ok msgs) ∧
    (∀ msgs, cl firstIssueKey secondIssueKey relationship =
        LinkCreateOutcome.notFoundEntity msgs →
       link_yt_issues m cl firstIssueKey secondIssueKey typeOfRelation =
         Except.ok msgs) ∧
    (∀ e, cl firstIssueKey secondIssueKey relationship =
        LinkCreateOutcome.otherFailure e →
       link_yt_issues m cl firstIssueKey secondIssueKey typeOfRelation =
         Except.error e) := by
  refine ⟨?_, ?_, ?_, ?_⟩
  · intro h
    simp [link_yt_issues, htr, h]
  · intro msgs h
    simp [link_yt_issues, htr, h]
  · intro msgs h
    simp [link_yt_issues, htr, h]
  · intro e h
    simp [link_yt_issues, htr, h]

/-- Witness for `link_failures_tolerated`: an already-linked response is
absorbed with its warning messages, while a generic remote failure
propagates. -/
theorem link_failures_tolerated_witness :
    link_yt_issues linkMapperEx
        (fun _ _ _ => LinkCreateOutcome.unprocessableEntity ["already linked"])
        "A" "B" "relates" = Except.ok ["already linked"] ∧
    link_yt_issues linkMapperEx
        (fun _ _ _ => LinkCreateOutcome.otherFailure (PyError.remoteFailure "boom"))
        "A" "B" "relates" = Except.error (PyError.remoteFailure "boom") :=
  ⟨(link_failures_tolerated linkMapperEx
      (fun _ _ _ => LinkCreateOutcome.unprocessableEntity ["already linked"])
      "A" "B" "relates" "relates" rfl).2.1 ["already linked"] rfl,
   (link_failures_tolerated linkMapperEx
      (fun _ _ _ => LinkCreateOutcome.otherFailure (PyError.remoteFailure "boom"))
      "A" "B" "relates" "relates" rfl).2.2.2 (PyError.remoteFailure "boom") rfl⟩

/-! ### Comment and attachment resync (`__main__.py`, lines 63-92) -/

/-- A source comment as consumed by `migrate_all_comments`: author display
name, raw creation timestamp, and markup body. -/
structure JiraComment where
  authorDisplayName : String
  created : String
  body : String

/-- The rewritten comment body (`__main__.py`, lines 72-78):
`"%s создал %s\n\n%s"` applied to the author, the localized timestamp
(`parser.parse(...).astimezone(...).strftime(...)`, the opaque `localize`
parameter) and the markup-converted body (`jira2markdown.convert`, the
opaque `convert` parameter). -/
def formatComment (localize convert : String → String) (c : JiraComment) : String :=
  c.authorDisplayName ++ " создал " ++ localize c.created ++ "\n\n" ++ convert c.body

/-- Embedding of `migrate_all_comments` (`__main__.py`, lines 64-79): every
comment returned by `get_comments` is deleted, then each source comment is
posted in order.  The destination comment list is modelled by the bodies in
order; deleting a comment removes its (first) occurrence. -/
def migrate_all_comments (localize convert : String → String)
    (destComments : List String) (comments : List JiraComment) : List String :=
  let afterDelete := List.foldl (fun st c => st.erase c) destComments destComments
  List.foldl (fun st c => st ++ [formatComment localize convert c])
    afterDelete comments

/-- A source attachment: original filename and content (`attachment.get()`). -/
structure JiraAttachment where
  filename : String
  content : String

/-- Embedding of `migrate_all_attachments` (`__main__.py`, lines 83-92):
every existing destination attachment is deleted, then each source
attachment's content is uploaded under its original filename. -/
def migrate_all_attachments (destAttachments : List (String × String))
    (attachments : List JiraAttachment) : List (String × String) :=
  let afterDelete := List.foldl (fun st a => st.erase a) destAttachments destAttachments
  List.foldl (fun st a => st ++ [(a.filename, a.content)]) afterDelete attachments

/-- Deleting every element returned by the initial listing empties the
destination list. -/
theorem foldl_erase_self {α : Type} [BEq α] [LawfulBEq α] :
    ∀ l : List α, List.foldl (fun st c => st.erase c) l l = []
  | [] => rfl
  | a :: t => by
      have h1 : List.foldl (fun st c => st.erase c) (a :: t) (a :: t) =
          List.foldl (fun st c => st.erase c) ((a :: t).erase a) t := rfl
      rw [h1, List.erase_cons_head]
      exact foldl_erase_self t

/-- Appending one derived element per source element is a map. -/
theorem foldl_append_singleton {α β : Type} (g : β → α) :
    ∀ (l : List β) (init : List α),
      List.foldl (fun st c => st ++ [g c]) init l = init ++ l.map g
  | [], init => by simp
  | b :: t, init => by
      rw [List.foldl_cons, foldl_append_singleton g t (init ++ [g b])]
      simp

/-! ### Claim C7: resync rebuilds purely from the source -/

/-- Claim C7: resyncing comments deletes every existing destination comment
and appends the source comments in source order, and resyncing attachments
deletes every existing attachment and re-uploads each source attachment
under its original filename — so both resulting destination lists depend
only on the source state; each appended comment is the author/localized
timestamp header line followed by the markup-converted body. -/
theorem resync_rebuilds_from_source (localize convert : String → String)
    (destComments : List String) (destAttachments : List (String × String))
    (comments : List JiraComment) (attachments : List JiraAttachment) :
    migrate_all_comments localize convert destComments comments =
      comments.map (formatComment localize convert) ∧
    migrate_all_attachments destAttachments attachments =
      attachments.map (fun a => (a.filename, a.content)) ∧
    (∀ c : JiraComment, formatComment localize convert c =
      c.authorDisplayName ++ " создал " ++ localize c.created ++ "\n\n" ++
        convert c.body) := by
  refine ⟨?_, ?_, fun c => rfl⟩
  · unfold migrate_all_comments
    rw [foldl_erase_self destComments, foldl_append_singleton]
    simp
  · unfold migrate_all_attachments
    rw [foldl_erase_self destAttachments, foldl_append_singleton]
    simp

/-! ### Find-or-create (`__main__.py`, lines 260-284) -/

/-- A destination issue as returned by `create_issue`/`get_issue`. -/
structure YtIssue where
  id : String
  key : String
  deriving DecidableEq, Repr

/-- The `try`/`finally` of the creation branch (`__main__.py`, lines
275-284).  `yaTmpIssue` is the value of `ya_tmp_issue` when the `finally`
block runs and `creationExc` the pending exception from the `try` body, if
any; the first component of the result is the list of issues on which the
fixed work-in-progress status transition was attempted.  A `finally`-block
failure replaces the pending exception; with no pending exception the
function falls through and returns `None`. -/
def creation_try_finally (yaTmpIssue : Option YtIssue) (creationExc : Option PyError)
    (applyWipStatus : YtIssue → Except PyError Unit) :
    List YtIssue × Except PyError (Option YtIssue) :=
  match yaTmpIssue with
  | Option.some issue =>
      (match applyWipStatus issue with
       | Except.error e => ([issue], Except.error e)
       | Except.ok _ =>
         ([issue],
          match creationExc with
          | Option.some e => Except.error e
          | Option.none => Except.ok Option.none))
  | Option.none =>
      ([],
       match creationExc with
       | Option.some e => Except.error e
       | Option.none => Except.ok Option.none)

/-- Embedding of `get_yt_issue_with_status_by_key_or_create_one`
(`__main__.py`, lines 261-284).  The `try` block around find-and-reconcile
is caught only for `YaTrackerError`; a parsed status code other than 404
re-raises, and 404 falls through to the creation branch, where the single
`create_issue` statement either binds `ya_tmp_issue` or leaves it `None`
with a pending exception. -/
def get_yt_issue_with_status_by_key_or_create_one
    (getIssue : Except PyError YtIssue)
    (reconcileStatus : YtIssue → Except PyError Unit)
    (createIssue : Except PyError YtIssue)
    (applyWipStatus : YtIssue → Except PyError Unit) :
    List YtIssue × Except PyError (Option YtIssue) :=
  let tryFindOutcome : Except PyError (Option YtIssue) :=
    match getIssue with
    | Except.error e => Except.error e
    | Except.ok existingIssue =>
      match reconcileStatus existingIssue with
      | Except.error e => Except.error e
      | Except.ok _ => Except.ok (Option.some existingIssue)
  match tryFindOutcome with
  | Except.ok r => ([], Except.ok r)
  | Except.error (PyError.yaTrackerError statusCode) =>
      if statusCode = 404 then
        match createIssue with
        | Except.ok issue =>
            creation_try_finally (Option.some issue) Option.none applyWipStatus
        | Except.error e =>
            creation_try_finally Option.none (Option.some e) applyWipStatus
      else ([], Except.error (PyError.yaTrackerError statusCode))
  | Except.error e => ([], Except.error e)

/-! ### Claim C8: the placeholder gets its WIP status in `finally` -/

/-- Claim C8: in the creation branch, the fixed work-in-progress status is
applied to the placeholder as a separate step whenever a placeholder issue
exists — even if an exception is pending from the creation step — and when
creation produced no issue, no status transition is attempted and the
creation failure propagates. -/
theorem create_branch_wip_status
    (reconcileStatus applyWipStatus : YtIssue → Except PyError Unit)
    (yaTmpIssue : Option YtIssue) (creationExc : Option PyError) :
    ((∀ issue, yaTmpIssue = Option.some issue →
       (creation_try_finally yaTmpIssue creationExc applyWipStatus).1 = [issue]) ∧
     (yaTmpIssue = Option.none →
       (creation_try_finally yaTmpIssue creationExc applyWipStatus).1 = []) ∧
     (∀ e, yaTmpIssue = Option.none → creationExc = Option.some e →
       (creation_try_finally yaTmpIssue creationExc applyWipStatus).2 =
         Except.error e) ∧
     (∀ issue,
       (get_yt_issue_with_status_by_key_or_create_one
          (Except.error (PyError.yaTrackerError 404)) reconcileStatus
          (Except.ok issue) applyWipStatus).1 = [issue]) ∧
     (∀ e,
       (get_yt_issue_with_status_by_key_or_create_one
          (Except.error (PyError.yaTrackerError 404)) reconcileStatus
          (Except.error e) applyWipStatus).1 = [] ∧
       (get_yt_issue_with_status_by_key_or_create_one
          (Except.error (PyError.yaTrackerError 404)) reconcileStatus
          (Except.error e) applyWipStatus).2 = Except.error e)) := by
  refine ⟨?_, ?_, ?_, ?_, ?_⟩
  · intro issue hiss
    subst hiss
    unfold creation_try_finally
    rcases h2 : applyWipStatus issue with e | u <;> simp [h2]
  · intro hiss
    subst hiss
    rfl
  · intro e hiss hexc
    subst hiss
    subst hexc
    rfl
  · intro issue
    unfold get_yt_issue_with_status_by_key_or_create_one creation_try_finally
    rcases h2 : applyWipStatus issue with e | u <;> simp [h2]
  · intro e
    exact ⟨rfl, rfl⟩

/-- Witness for `create_branch_wip_status`: the WIP transition is attempted
on an existing placeholder even with a pending creation exception, and is
skipped (with the exception propagating) when no placeholder exists. -/
theorem create_branch_wip_status_witness :
    (creation_try_finally (Option.some { id := "1", key := "Q-1" })
        (Option.some (PyError.remoteFailure "late failure"))
        (fun _ => Except.ok ())).1 = [{ id := "1", key := "Q-1" }] ∧
    (creation_try_finally Option.none
        (Option.some (PyError.remoteFailure "create failed"))
        (fun _ => Except.ok ())).1 = [] ∧
    (creation_try_finally Option.none
        (Option.some (PyError.remoteFailure "create failed"))
        (fun _ => Except.ok ())).2 =
      Except.error (PyError.remoteFailure "create failed") :=
  ⟨(create_branch_wip_status (fun _ => Except.ok ()) (fun _ => Except.ok ())
      (Option.some { id := "1", key := "Q-1" })
      (Option.some (PyError.remoteFailure "late failure"))).1
      { id := "1", key := "Q-1" } rfl,
   (create_branch_wip_status (fun _ => Except.ok ()) (fun _ => Except.ok ())
      Option.none (Option.some (PyError.remoteFailure "create failed"))).2.1 rfl,
   (create_branch_wip_status (fun _ => Except.ok ()) (fun _ => Except.ok ())
      Option.none (Option.some (PyError.remoteFailure "create failed"))).2.2.1
      (PyError.remoteFailure "create failed") rfl rfl⟩

/-! ### Claim C10: the migration key range -/

/-- Embedding of the `starting_task`/`finish_task` computation in
`initialize_global_variables` (`__main__.py`, lines 391-396): the starting
key uses `max(1, started_task_number)` and the finish key is only set for a
positive finish task number. -/
def initialize_task_bounds (projectAndQueueKey : String)
    (startedTaskNumber finishTaskNumber : Int) : String × Option String :=
  (projectAndQueueKey ++ "-" ++ toString (max 1 startedTaskNumber),
   if finishTaskNumber > 0 then
     Option.some (projectAndQueueKey ++ "-" ++ toString finishTaskNumber)
   else Option.none)

/-- The search query built by `get_all_jira_issues` (`__main__.py`, lines
454-464): a lower bound only, or an inclusive `key<=` upper bound when a
finish task is set. -/
def get_all_jira_issues_query (startingTask : String)
    (finishTask : Option String) : String :=
  match finishTask with
  | Option.none => "key>=" ++ startingTask ++ " ORDER BY key ASC"
  | Option.some f =>
      "key>=" ++ startingTask ++ " AND key<=" ++ f ++ " ORDER BY key ASC"

/-- Claim C10: the run's starting key is built from `max(1, n)` — values
below 1 are silently clamped to 1 — and a finish task number of at most 0
leaves the key range without an upper bound, while a positive one yields an
inclusive (`key<=`) upper bound in the search query. -/
theorem task_range_bounds (p : String) (n f : Int) :
    ((initialize_task_bounds p n f).1 = p ++ "-" ++ toString (max 1 n)) ∧
    (n < 1 → (initialize_task_bounds p n f).1 = p ++ "-" ++ toString (1 : Int)) ∧
    (1 ≤ n → (initialize_task_bounds p n f).1 = p ++ "-" ++ toString n) ∧
    (f ≤ 0 → (initialize_task_bounds p n f).2 = Option.none ∧
       get_all_jira_issues_query (initialize_task_bounds p n f).1
           (initialize_task_bounds p n f).2 =
         "key>=" ++ (p ++ "-" ++ toString (max 1 n)) ++ " ORDER BY key ASC") ∧
    (0 < f → (initialize_task_bounds p n f).2 =
         Option.some (p ++ "-" ++ toString f) ∧
       get_all_jira_issues_query (initialize_task_bounds p n f).1
           (initialize_task_bounds p n f).2 =
         "key>=" ++ (p ++ "-" ++ toString (max 1 n)) ++ " AND key<=" ++
           (p ++ "-" ++ toString f) ++ " ORDER BY key ASC") := by
  refine ⟨rfl, ?_, ?_, ?_, ?_⟩
  · intro h
    have hmax : max 1 n = 1 := max_eq_left h.le
    simp [initialize_task_bounds, hmax]
  · intro h
    have hmax : max 1 n = n := max_eq_right h
    simp [initialize_task_bounds, hmax]
  · intro h
    have hf : ¬ (f > 0) := by omega
    exact ⟨by simp [initialize_task_bounds, hf],
      by simp [initialize_task_bounds, get_all_jira_issues_query, hf]⟩
  · intro h
    exact ⟨by simp [initialize_task_bounds, h],
      by simp [initialize_task_bounds, get_all_jira_issues_query, h]⟩

/-- Witness for `task_range_bounds`: a negative start clamps to 1 with no
upper bound, and a positive finish sets the inclusive bound key. -/
theorem task_range_bounds_witness :
    (initialize_task_bounds "PROJ" (-5) 0).1 = "PROJ-1" ∧
    (initialize_task_bounds "PROJ" (-5) 0).2 = Option.none ∧
    (initialize_task_bounds "PROJ" 3 7).2 = Option.some "PROJ-7" :=
  ⟨((task_range_bounds "PROJ" (-5) 0).2.1 (by decide)).trans rfl,
   ((task_range_bounds "PROJ" (-5) 0).2.2.2.1 (by decide)).1,
   ((task_range_bounds "PROJ" 3 7).2.2.2.2 (by decide)).1⟩
